import Mathlib

set_option maxHeartbeats 1000000

/-!
Shallow embedding of the query-composition layer in src/xappy/query.py
(class Query).  Pure Python methods become Lean functions; methods that can
raise become functions into Except PyErr.  Field names follow the mangled
attribute names of the source (query, refs, conn, ranges, serialised, op,
subqs, searchParams).
-/

namespace Xappy

/-- Binary associative operators accepted by Query.compose: the xapian
constants OP_AND and OP_OR (src/xappy/query.py lines 35-36). -/
inductive AOp : Type where
  | AND : AOp
  | OR : AOp
deriving DecidableEq

/-- Pairwise operators dispatched through the private combining method of
Query (src/xappy/query.py lines 288-314): OP_XOR, OP_AND_NOT, OP_FILTER and
OP_AND_MAYBE. -/
inductive POp : Type where
  | XOR : POp
  | AND_NOT : POp
  | FILTER : POp
  | AND_MAYBE : POp
deriving DecidableEq

/-- Model of the opaque xapian.Query expression handle.  The layer under
verification only ever builds such values (empty query, leaf expression,
n-ary AND/OR combination, pairwise combination, weight scaling) and asks
whether they are empty; it never inspects them otherwise. -/
inductive XapQuery : Type where
  | empty : XapQuery
  | leaf : String → XapQuery
  | multi : AOp → List XapQuery → XapQuery
  | pair : POp → XapQuery → XapQuery → XapQuery
  | scale : Rat → XapQuery → XapQuery

mutual

/-- Emptiness test of a xapian query (xapian.Query.empty): a query with no
term or other source of documents matches nothing.  The default constructor
and combinations of empty queries are empty; a leaf term is not. -/
def XapQuery.isEmpty : XapQuery → Bool
  | .empty => true
  | .leaf _ => false
  | .multi _ qs => XapQuery.listEmpty qs
  | .pair _ a b => a.isEmpty && b.isEmpty
  | .scale _ q => q.isEmpty

/-- Emptiness of every query in a list, for the n-ary combination case. -/
def XapQuery.listEmpty : List XapQuery → Bool
  | [] => true
  | q :: qs => q.isEmpty && XapQuery.listEmpty qs

end

/-- Model of a SearchConnection, an external collaborator.  Identity of the
Python object is modelled by the identifier; the answer its
get_max_possible_weight method gives for a query is modelled by the stored
rational mpw. -/
structure Conn : Type where
  cid : Nat
  mpw : Rat
deriving DecidableEq

/-- A range-filter fact: a (fieldname, start, end) triple. -/
abbrev RangeT : Type := String × String × String

/-- The facet spec stored under search_params: the invert flag plus the
field dictionary mapping a fieldname to (checkatleast,
desired_num_of_categories).  The dictionary is modelled as an
insertion-ordered association list. -/
structure FacetSpec : Type where
  invert : Bool
  fields : List (String × Option Nat × Option Nat)
deriving DecidableEq

/-- The exceptions the source can raise, one constructor per distinct raise
site kind. -/
inductive PyErr : Type where
  /-- ValueError at line 119: cannot compose this query with other queries. -/
  | compositionError : PyErr
  /-- ValueError at line 130: queries are not from the same connection. -/
  | connectionMismatch : PyErr
  /-- ValueError at lines 364, 403, 425: this Query is not associated with a
  SearchConnection. -/
  | noConnection : PyErr
  /-- ValueError at lines 561, 599: facet mode conflict between get_facets
  and get_facets_except. -/
  | facetModeConflict : PyErr
  /-- TypeError raised by the Python runtime (e.g. adding None to a string,
  or calling str.join with several positional arguments). -/
  | typeError : PyErr
deriving DecidableEq

/-- A xappy Query node.  Fields, in order: the xapian expression (query),
the refs list (modelled as opaque naturals), the connection, the range
facts, the serialised text (None when provenance is unknown), the top-level
associative operator (op, set only by compose), the flattened subquery list
(subqs, set only by compose; entries are raw xapian queries or Query
nodes), and the search params (None models the empty dict; the only key the
source ever stores is the facets spec). -/
inductive Query : Type where
  | mk : XapQuery → List Nat → Option Conn → List RangeT → Option String →
         Option AOp → List (XapQuery ⊕ Query) → Option FacetSpec → Query

/-- An operand accepted by the composition operators: a raw xapian.Query or
a xappy Query node. -/
abbrev Operand : Type := XapQuery ⊕ Query

def Query.query : Query → XapQuery
  | .mk x _ _ _ _ _ _ _ => x

def Query.refs : Query → List Nat
  | .mk _ r _ _ _ _ _ _ => r

def Query.conn : Query → Option Conn
  | .mk _ _ c _ _ _ _ _ => c

def Query.ranges : Query → List RangeT
  | .mk _ _ _ r _ _ _ _ => r

def Query.serialised : Query → Option String
  | .mk _ _ _ _ s _ _ _ => s

def Query.op : Query → Option AOp
  | .mk _ _ _ _ _ o _ _ => o

def Query.subqs : Query → List Operand
  | .mk _ _ _ _ _ _ s _ => s

def Query.searchParams : Query → Option FacetSpec
  | .mk _ _ _ _ _ _ _ p => p

def Query.withQuery : Query → XapQuery → Query
  | .mk _ b c d e f g h, x => .mk x b c d e f g h

def Query.withSerialised : Query → Option String → Query
  | .mk a b c d _ f g h, s => .mk a b c d s f g h

def Query.withSearchParams : Query → Option FacetSpec → Query
  | .mk a b c d e f g _, p => .mk a b c d e f g p

/-- Query() with all defaults (lines 57-60, 66-73): empty xapian query,
serialised text the canonical literal, empty refs, no connection, no
ranges, no operator, no subqueries, empty search params. -/
def Query.emptyQ : Query :=
  .mk .empty [] none [] (some "Query()") none [] none

/-- Query(xq, _serialised=ser, _conn=conn) for a raw xapian query xq with
default refs and ranges (lines 66-73).  When no serialised text is supplied
the node has unknown provenance (serialised is None). -/
def Query.ofXapian (xq : XapQuery) (ser : Option String) (conn : Option Conn) : Query :=
  .mk xq [] conn [] ser none [] none

/-- Connection reconciliation inside the parameter merge (lines 125-130):
Python compares the two connection objects with an identity test, modelled
as value equality; if the target has none it adopts the source one, if both
are set and differ it raises. -/
def mergeConn (sc oc : Option Conn) : Except PyErr (Option Conn) :=
  if sc = oc then .ok sc
  else
    match sc with
    | none => .ok oc
    | some _ =>
      if oc = none then .ok sc
      else .error .connectionMismatch

/-- Range accumulation inside the parameter merge (lines 135-138): each
source range not already present is appended to the target list. -/
def mergeRanges (tgt src : List RangeT) : List RangeT :=
  src.foldl (fun acc r => if r ∈ acc then acc else acc ++ [r]) tgt

/-- The parameter merge (lines 121-138): reconciles the connections,
concatenates the refs, accumulates the ranges.  It touches neither the
serialised text nor the operator, subqueries or search params of the
target. -/
def Query.mergeParams (self other : Query) : Except PyErr Query :=
  match mergeConn self.conn other.conn with
  | .error e => .error e
  | .ok c =>
    .ok (.mk self.query (self.refs ++ other.refs) c
         (mergeRanges self.ranges other.ranges) self.serialised
         self.op self.subqs self.searchParams)

/-- The copy constructor Query(q) with default keyword arguments (lines
38-86, xappy branch): refs, conn and ranges start from the defaults, the
serialised text and the (deep-copied) search params are taken from the
source, op and subqs are reset, and the parameter merge with the source
runs (which cannot raise because the fresh connection is None). -/
def Query.copy (q : Query) : Query :=
  .mk q.query q.refs q.conn (mergeRanges [] q.ranges) q.serialised none [] q.searchParams

/-- is_composable (lines 100-111): true iff the search params dict is
empty. -/
def Query.isComposable (q : Query) : Bool :=
  q.searchParams.isNone

/-- The composability check (lines 113-119): raises the composition
ValueError when the node is not composable. -/
def Query.checkComposable (q : Query) : Except PyErr Unit :=
  if q.isComposable then .ok () else .error .compositionError

/-- The composability loop of compose (lines 166-169): every operand that
has the check method (i.e. every xappy Query, raw xapian queries are
skipped) is checked in order. -/
def checkAllComposable : List Operand → Except PyErr Unit
  | [] => .ok ()
  | Sum.inl _ :: rest => checkAllComposable rest
  | Sum.inr q :: rest =>
    match q.checkComposable with
    | .error e => .error e
    | .ok _ => checkAllComposable rest

/-- One step of the flattening loop (lines 174-179): an operand that is a
xappy Query whose top-level operator equals the combining operator has its
subqs spliced in verbatim (one level, not recursively); every other operand
stays as a singleton. -/
def flattenOp (op : AOp) (o : Operand) : List Operand :=
  match o with
  | Sum.inl xq => [Sum.inl xq]
  | Sum.inr q => if q.op = some op then q.subqs else [Sum.inr q]

/-- The flattening loop over the whole operand list (lines 174-179). -/
def flattenAll (op : AOp) : List Operand → List Operand
  | [] => []
  | o :: rest => flattenOp op o ++ flattenAll op rest

/-- Collection of the underlying xapian queries of the flattened operands
(lines 185-192). -/
def collectXap : List Operand → List XapQuery
  | [] => []
  | Sum.inl xq :: rest => xq :: collectXap rest
  | Sum.inr q :: rest => q.query :: collectXap rest

/-- Collection of the serialised texts of the flattened operands (lines
186-198): the whole collection becomes None as soon as one operand is a raw
xapian query or a node with unknown serialised text. -/
def collectSer : List Operand → Option (List String)
  | [] => some []
  | Sum.inl _ :: _ => none
  | Sum.inr q :: rest =>
    match q.serialised with
    | none => none
    | some s =>
      match collectSer rest with
      | none => none
      | some l => some (s :: l)

/-- The parameter-merge loop of compose (line 199): merges every xappy
Query operand into the accumulating result, in order. -/
def mergeAll (base : Query) : List Operand → Except PyErr Query
  | [] => .ok base
  | Sum.inl _ :: rest => mergeAll base rest
  | Sum.inr q :: rest =>
    match base.mergeParams q with
    | .error e => .error e
    | .ok b => mergeAll b rest

/-- Serialised text rebuilt by compose from the texts of the flattened
operands (lines 204-220): the empty-query literal for zero texts, the text
itself for one, an infix form for two, the function-call form for three or
more. -/
def serialiseMulti (op : AOp) : List String → String
  | [] => "Query()"
  | [s] => s
  | [s1, s2] =>
    "(" ++ s1 ++ (match op with | .AND => " & " | .OR => " | ") ++ s2 ++ ")"
  | l =>
    "Query.compose(" ++
      (match op with | .AND => "Query.OP_AND" | .OR => "Query.OP_OR") ++
      ", (" ++ String.intercalate ", " l ++ "))"

/-- The branch of compose for two or more operands (lines 181-222), taking
the already-flattened operand list: starts from Query() (whose serialised
text is the literal Query()), merges the params of every operand, builds
the combined xapian query, and overwrites the serialised text only when
every operand text is known — when some operand text is unknown the initial
literal is kept, exactly as in the source. -/
def composeMulti (op : AOp) (flat : List Operand) : Except PyErr Query :=
  match mergeAll Query.emptyQ flat with
  | .error e => .error e
  | .ok merged =>
    let ser :=
      match collectSer flat with
      | none => merged.serialised
      | some l => some (serialiseMulti op l)
    .ok (.mk (XapQuery.multi op (collectXap flat)) merged.refs merged.conn
         merged.ranges ser (some op) flat merged.searchParams)

/-- Query.compose (lines 140-222): filters out None entries, returns an
empty query for zero operands and a copy for one, and otherwise checks
composability of every operand, flattens same-operator composites one
level, and builds the combination. -/
def Query.compose (op : AOp) (queries : List (Option Operand)) : Except PyErr Query :=
  let qs := queries.filterMap id
  match qs with
  | [] => .ok Query.emptyQ
  | [o] =>
    .ok (match o with
         | Sum.inl xq => Query.ofXapian xq none none
         | Sum.inr q => q.copy)
  | _ =>
    match checkAllComposable qs with
    | .error e => .error e
    | .ok _ => composeMulti op (flattenAll op qs)

/-- Method-chain name used in the serialised text of a pairwise combination
(lines 300-306). -/
def POp.methodName : POp → String
  | .XOR => ".xor"
  | .AND_NOT => ".and_not"
  | .FILTER => ".filter"
  | .AND_MAYBE => ".adjust"

/-- The private pairwise combining method (lines 288-314), also reached
through xor, and_not, filter, adjust and and_maybe (lines 316-353): copies
self, checks self, and for a xappy Query right operand checks it, merges
its params, and rebuilds the serialised text in method-chain form only when
both texts are known — otherwise the copied text of self is kept, exactly
as in the source. -/
def Query.combineWith (self : Query) (op : POp) (other : Operand) : Except PyErr Query :=
  let result := self.copy
  match self.checkComposable with
  | .error e => .error e
  | .ok _ =>
    match other with
    | Sum.inl oq => .ok (result.withQuery (XapQuery.pair op self.query oq))
    | Sum.inr o =>
      match o.checkComposable with
      | .error e => .error e
      | .ok _ =>
        match result.mergeParams o with
        | .error e => .error e
        | .ok r =>
          let r' :=
            match self.serialised, o.serialised with
            | some s1, some s2 =>
              r.withSerialised (some (s1 ++ op.methodName ++ "(" ++ s2 ++ ")"))
            | _, _ => r
          .ok (r'.withQuery (XapQuery.pair op self.query o.query))

/-- Python repr of the float multipliers this development evaluates: every
multiplier evaluated by a theorem below is integral, where repr prints the
integer followed by a trailing .0; non-integral values keep a symbolic
num/den rendering. -/
def pyReprFloat (q : Rat) : String :=
  if q.den = 1 then toString q.num ++ ".0"
  else toString q.num ++ "/" ++ toString q.den

/-- The weight-scaling operator (lines 224-238): starts from Query(),
merges the params of self (which cannot raise since the fresh connection is
None), checks self composable, and sets the serialised text only when the
text of self is known — otherwise the initial Query() literal is kept,
exactly as in the source. -/
def Query.mul (self : Query) (m : Rat) : Except PyErr Query :=
  match Query.emptyQ.mergeParams self with
  | .error e => .error e
  | .ok result =>
    match self.checkComposable with
    | .error e => .error e
    | .ok _ =>
      let r :=
        match self.serialised with
        | some s =>
          result.withSerialised (some ("(" ++ s ++ " * " ++ pyReprFloat m ++ ")"))
        | none => result
      .ok (r.withQuery (XapQuery.scale m self.query))

/-- get_max_possible_weight (lines 355-366): 0 for an empty query, the
no-connection ValueError when no connection is associated, otherwise the
answer of the connection. -/
def Query.getMaxPossibleWeight (self : Query) : Except PyErr Rat :=
  if self.query.isEmpty then .ok 0
  else
    match self.conn with
    | none => .error .noConnection
    | some c => .ok c.mpw

/-- norm (lines 368-394): computes the maximum possible weight, and when it
is positive scales self by maxweight divided by it and rewrites the
serialised text in .norm() form; adding the suffix to a None text raises
TypeError, exactly as in the source; when the maximum possible weight is
not positive self is returned unchanged. -/
def Query.norm (self : Query) (maxweight : Rat) : Except PyErr Query :=
  match self.getMaxPossibleWeight with
  | .error e => .error e
  | .ok mp =>
    if mp > 0 then
      match self.mul (maxweight / mp) with
      | .error e => .error e
      | .ok result =>
        match self.serialised with
        | none => .error .typeError
        | some s =>
          if maxweight = 1 then
            .ok (result.withSerialised (some (s ++ ".norm()")))
          else
            .ok (result.withSerialised (some (s ++ ".norm(" ++ pyReprFloat maxweight ++ ")")))
    else .ok self

/-- evalable_repr (lines 463-483): returns the stored serialised text, or
None when the provenance is unknown. -/
def Query.evalable_repr (q : Query) : Option String :=
  q.serialised

/-- Python repr of an optional integer argument. -/
def pyReprOptNat : Option Nat → String
  | none => "None"
  | some n => toString n

/-- Python repr of a string, for the plain identifiers this development
uses (no quoting or escaping inside them). -/
def pyReprStr (s : String) : String :=
  "\x27" ++ s ++ "\x27"

/-- Python repr of a tuple of strings: empty tuple, singleton with a
trailing comma, or comma-separated. -/
def pyReprStrTuple : List String → String
  | [] => "()"
  | [x] => "(" ++ pyReprStr x ++ ",)"
  | l => "(" ++ String.intercalate ", " (l.map pyReprStr) ++ ")"

/-- Overwriting insertion into the insertion-ordered field dictionary of a
facet spec. -/
def dictInsert (d : List (String × Option Nat × Option Nat)) (k : String)
    (v : Option Nat × Option Nat) : List (String × Option Nat × Option Nat) :=
  if d.any (fun kv => kv.1 = k) then
    d.map (fun kv => if kv.1 = k then (k, v) else kv)
  else d ++ [(k, v)]

/-- get_facets (lines 537-573): copies self, reads or creates the facet
spec with invert False, raises the facet-mode ValueError when the existing
spec has invert True, stores (checkatleast, desired) for every named field,
and appends the .get_facets(...) call to the serialised text of self —
joining a None text raises TypeError, as str.join does in the source. -/
def Query.get_facets (self : Query) (fieldnames : List String)
    (checkatleast desired : Option Nat) : Except PyErr Query :=
  let result := self.copy
  let facets := result.searchParams.getD ⟨false, []⟩
  if facets.invert then .error .facetModeConflict
  else
    let fields := fieldnames.foldl (fun fs fn => dictInsert fs fn (checkatleast, desired)) facets.fields
    match self.serialised with
    | none => .error .typeError
    | some s =>
      .ok ((result.withSearchParams (some ⟨false, fields⟩)).withSerialised
           (some (s ++ ".get_facets(" ++ pyReprStrTuple fieldnames ++ ", " ++
                  pyReprOptNat checkatleast ++ ", " ++ pyReprOptNat desired ++ ")")))

/-- get_facets_except (lines 575-608): copies self, reads or creates the
facet spec with invert True, raises the facet-mode ValueError when the
existing spec has invert False, stores (None, None) for every named field
on the discarded copy, and then evaluates the final statement of the
method, which calls str.join with four positional arguments — str.join
takes exactly one argument, so the call raises TypeError unconditionally
and the method never returns. -/
def Query.get_facets_except (self : Query) (_fieldnames : List String)
    (_checkatleast _desired : Option Nat) : Except PyErr Query :=
  let result := self.copy
  let facets := result.searchParams.getD ⟨true, []⟩
  if !facets.invert then .error .facetModeConflict
  else .error .typeError

/-- A leaf node Query(xapian.Query(ta), _serialised=A): known text A. -/
def qLeafA : Query := Query.ofXapian (.leaf "ta") (some "A") none

/-- A leaf node with known serialised text B. -/
def qLeafB : Query := Query.ofXapian (.leaf "tb") (some "B") none

/-- A leaf node with known serialised text C. -/
def qLeafC : Query := Query.ofXapian (.leaf "tc") (some "C") none

/-- A node built from a raw xapian expression with no serialised text:
unknown provenance. -/
def qRawW : Query := Query.ofXapian (.leaf "w") none none

/-- The node get_facets builds from qLeafA for the single field color. -/
def facetQ : Query :=
  Query.mk (.leaf "ta") [] none [] (some "A.get_facets((\x27color\x27,), None, None)")
    none [] (some ⟨false, [( "color" , none, none )]⟩)

/-- The two-operand AND combination of qLeafA and qLeafB. -/
def innerAB : Query :=
  Query.mk (.multi .AND [.leaf "ta", .leaf "tb"]) [] none [] (some "(A & B)")
    (some .AND) [Sum.inr qLeafA, Sum.inr qLeafB] none

/-- A leaf node carrying connection 1 (whose max possible weight answer is 5). -/
def connQ1 : Query := Query.ofXapian (.leaf "x") (some "X") (some ⟨1, 5⟩)

/-- A leaf node carrying connection 2 (whose max possible weight answer is 7). -/
def connQ2 : Query := Query.ofXapian (.leaf "y") (some "Y") (some ⟨2, 7⟩)

/-- A leaf node carrying no connection. -/
def connQ0 : Query := Query.ofXapian (.leaf "z") (some "Z") none

/-- A non-empty node with a connection answering max possible weight 0. -/
def zeroWq : Query := Query.ofXapian (.leaf "x") (some "X") (some ⟨3, 0⟩)

/-- A non-empty node with a positive-weight connection but unknown
serialised text. -/
def unkSerQ : Query := Query.ofXapian (.leaf "w") none (some ⟨1, 5⟩)

/-- A node holding one range fact. -/
def rngT : Query :=
  Query.mk (.leaf "x") [] none [( "price" , "0" , "100" )] (some "X") none [] none

/-- A node holding two range facts, the first shared with rngT. -/
def rngS : Query :=
  Query.mk (.leaf "y") [] none [( "price" , "0" , "100" ), ( "date" , "a" , "b" )]
    (some "Y") none [] none

/-- The merge of the parameters of rngS into rngT. -/
def rngU : Query :=
  Query.mk (.leaf "x") [] none [( "price" , "0" , "100" ), ( "date" , "a" , "b" )]
    (some "X") none [] none

section

variable {xq : XapQuery} {rf : List Nat} {cn : Option Conn} {rg : List RangeT}
variable {sr : Option String} {o : Option AOp} {sq : List Operand} {sp : Option FacetSpec}

@[simp] theorem Query.query_mk : (Query.mk xq rf cn rg sr o sq sp).query = xq := rfl

@[simp] theorem Query.refs_mk : (Query.mk xq rf cn rg sr o sq sp).refs = rf := rfl

@[simp] theorem Query.conn_mk : (Query.mk xq rf cn rg sr o sq sp).conn = cn := rfl

@[simp] theorem Query.ranges_mk : (Query.mk xq rf cn rg sr o sq sp).ranges = rg := rfl

@[simp] theorem Query.serialised_mk : (Query.mk xq rf cn rg sr o sq sp).serialised = sr := rfl

@[simp] theorem Query.op_mk : (Query.mk xq rf cn rg sr o sq sp).op = o := rfl

@[simp] theorem Query.subqs_mk : (Query.mk xq rf cn rg sr o sq sp).subqs = sq := rfl

@[simp] theorem Query.searchParams_mk : (Query.mk xq rf cn rg sr o sq sp).searchParams = sp := rfl

end

section

variable {q : Query} {s : Option String} {x : XapQuery} {p : Option FacetSpec}

@[simp] theorem Query.serialised_withSerialised : (q.withSerialised s).serialised = s := by
  cases q; rfl

@[simp] theorem Query.searchParams_withSerialised : (q.withSerialised s).searchParams = q.searchParams := by
  cases q; rfl

@[simp] theorem Query.conn_withSerialised : (q.withSerialised s).conn = q.conn := by
  cases q; rfl

@[simp] theorem Query.serialised_withQuery : (q.withQuery x).serialised = q.serialised := by
  cases q; rfl

@[simp] theorem Query.searchParams_withQuery : (q.withQuery x).searchParams = q.searchParams := by
  cases q; rfl

@[simp] theorem Query.searchParams_withSearchParams : (q.withSearchParams p).searchParams = p := by
  cases q; rfl

@[simp] theorem Query.serialised_withSearchParams : (q.withSearchParams p).serialised = q.serialised := by
  cases q; rfl

@[simp] theorem Query.searchParams_copy : q.copy.searchParams = q.searchParams := rfl

@[simp] theorem Query.serialised_copy : q.copy.serialised = q.serialised := rfl

@[simp] theorem Query.conn_copy : q.copy.conn = q.conn := rfl

end

/-- Reconciling against an absent target connection adopts the source
connection and never raises. -/
theorem mergeConn_none_left (oc : Option Conn) : mergeConn none oc = .ok oc := by
  cases oc <;> simp [mergeConn]

/-- The parameter merge never changes the search params, serialised text,
operator or subqueries of the target, and accumulates the ranges with the
append-if-absent loop. -/
theorem mergeParams_ok_fields {s o u : Query} (h : s.mergeParams o = .ok u) :
    u.searchParams = s.searchParams ∧ u.serialised = s.serialised ∧
    u.op = s.op ∧ u.subqs = s.subqs ∧
    u.ranges = mergeRanges s.ranges o.ranges := by
  unfold Query.mergeParams at h
  cases hc : mergeConn s.conn o.conn with
  | error e => rw [hc] at h; exact absurd h (by simp)
  | ok c =>
    rw [hc] at h
    have := Except.ok.inj h
    subst this
    simp

/-- The merge loop of compose preserves the search params of the base. -/
theorem mergeAll_ok_searchParams :
    ∀ (l : List Operand) (b m : Query), mergeAll b l = .ok m →
      m.searchParams = b.searchParams := by
  intro l
  induction l with
  | nil =>
    intro b m h
    have := Except.ok.inj h
    subst this; rfl
  | cons hd tl ih =>
    intro b m h
    cases hd with
    | inl xq => exact ih b m h
    | inr q =>
      unfold mergeAll at h
      cases hm : b.mergeParams q with
      | error e => rw [hm] at h; exact absurd h (by simp)
      | ok b' =>
        rw [hm] at h
        have h1 := ih b' m h
        rw [h1, (mergeParams_ok_fields hm).1]

/-- Unfolding of mergeRanges on a cons source. -/
theorem mergeRanges_cons (acc : List RangeT) (h : RangeT) (t : List RangeT) :
    mergeRanges acc (h :: t) = mergeRanges (if h ∈ acc then acc else acc ++ [h]) t := rfl

/-- A range already present in the accumulator keeps its multiplicity
across the accumulation loop: no duplicate copy is ever appended. -/
theorem mergeRanges_count_of_mem :
    ∀ (l acc : List RangeT) (r : RangeT), r ∈ acc →
      (mergeRanges acc l).count r = acc.count r := by
  intro l
  induction l with
  | nil => intro acc r _; rfl
  | cons h t ih =>
    intro acc r hr
    rw [mergeRanges_cons]
    by_cases hm : h ∈ acc
    · rw [if_pos hm]; exact ih acc r hr
    · rw [if_neg hm]
      have hr' : r ∈ acc ++ [h] := List.mem_append_left _ hr
      rw [ih _ r hr']
      have hne : ¬(r = h) := fun e => hm (e ▸ hr)
      simp [List.count_append, hne]

/-- The accumulation loop extends the target on the right with source
entries that were not already present. -/
theorem mergeRanges_extends :
    ∀ (l acc : List RangeT), ∃ ext, mergeRanges acc l = acc ++ ext ∧
      ∀ x ∈ ext, x ∈ l ∧ x ∉ acc := by
  intro l
  induction l with
  | nil => intro acc; exact ⟨[], by simp [mergeRanges], by simp⟩
  | cons h t ih =>
    intro acc
    rw [mergeRanges_cons]
    by_cases hm : h ∈ acc
    · rw [if_pos hm]
      obtain ⟨ext, he, hp⟩ := ih acc
      exact ⟨ext, he, fun x hx => ⟨List.mem_cons_of_mem _ (hp x hx).1, (hp x hx).2⟩⟩
    · rw [if_neg hm]
      obtain ⟨ext, he, hp⟩ := ih (acc ++ [h])
      refine ⟨h :: ext, by rw [he]; simp, ?_⟩
      intro x hx
      rcases List.mem_cons.mp hx with hx | hx
      · subst hx; exact ⟨List.mem_cons_self _ _, hm⟩
      · have := hp x hx
        refine ⟨List.mem_cons_of_mem _ this.1, fun hxa => this.2 (List.mem_append_left _ hxa)⟩

/-- The target is contained in the accumulation result. -/
theorem subset_mergeRanges (l acc : List RangeT) : acc ⊆ mergeRanges acc l := by
  intro x hx
  obtain ⟨ext, he, _⟩ := mergeRanges_extends l acc
  rw [he]
  exact List.mem_append_left _ hx

/-- Every source range ends up in the accumulation result. -/
theorem mergeRanges_mem_src :
    ∀ (l acc : List RangeT) (x : RangeT), x ∈ l → x ∈ mergeRanges acc l := by
  intro l
  induction l with
  | nil => intro acc x hx; exact absurd hx (List.not_mem_nil x)
  | cons h t ih =>
    intro acc x hx
    rw [mergeRanges_cons]
    by_cases hm : h ∈ acc
    · rw [if_pos hm]
      rcases List.mem_cons.mp hx with hx | hx
      · subst hx; exact subset_mergeRanges t acc hm
      · exact ih acc x hx
    · rw [if_neg hm]
      rcases List.mem_cons.mp hx with hx | hx
      · have hmem : x ∈ acc ++ [h] := by
          rw [hx]
          exact List.mem_append_right _ (List.mem_singleton.mpr rfl)
        exact subset_mergeRanges t (acc ++ [h]) hmem
      · exact ih (acc ++ [h]) x hx

/-- The composability loop fails with the composition error as soon as the
operand list contains a non-composable xappy Query, whatever the other
operands are. -/
theorem checkAllComposable_error_of_mem :
    ∀ (l : List Operand) (q : Query), Sum.inr q ∈ l → q.isComposable = false →
      checkAllComposable l = .error .compositionError := by
  intro l
  induction l with
  | nil => intro q h _; exact absurd h (List.not_mem_nil _)
  | cons hd tl ih =>
    intro q h hq
    cases hd with
    | inl xq =>
      have : Sum.inr q ∈ tl := by
        rcases List.mem_cons.mp h with h' | h'
        · exact absurd h' (by simp)
        · exact h'
      exact ih q this hq
    | inr q' =>
      unfold checkAllComposable
      by_cases hq' : q'.isComposable = true
      · rw [show q'.checkComposable = .ok () from by simp [Query.checkComposable, hq']]
        have : Sum.inr q ∈ tl := by
          rcases List.mem_cons.mp h with h' | h'
          · have : q = q' := by injection h'
            subst this
            rw [hq] at hq'
            exact absurd hq' (by simp)
          · exact h'
        exact ih q this hq
      · rw [show q'.checkComposable = .error .compositionError from by
          simp [Query.checkComposable, Bool.not_eq_true] at hq'
          simp [Query.checkComposable, hq']]

/-- Composability is equivalent to empty search params. -/
theorem isComposable_false_of_searchParams {q : Query} {sp : FacetSpec}
    (h : q.searchParams = some sp) : q.isComposable = false := by
  simp [Query.isComposable, h]

/-- A node returned successfully by get_facets carries a non-empty facet
spec under its search params, hence is not composable. -/
theorem get_facets_ok_noncomposable {q f : Query} {flds : List String}
    {ca dc : Option Nat} (h : q.get_facets flds ca dc = .ok f) :
    f.isComposable = false := by
  unfold Query.get_facets at h
  simp only [Query.searchParams_copy] at h
  split at h
  · exact absurd h (by simp)
  · split at h
    · exact absurd h (by simp)
    · have hf := Except.ok.inj h
      subst hf
      simp [Query.isComposable]

/-- A non-composable left operand makes every pairwise combination fail
with the composition error, before the right operand is even inspected. -/
theorem combineWith_error_self {q : Query} (hq : q.isComposable = false)
    (p : POp) (x : Operand) : q.combineWith p x = .error .compositionError := by
  unfold Query.combineWith
  simp [Query.checkComposable, hq]

/-- A non-composable xappy Query right operand makes every pairwise
combination fail with the composition error, whatever the left operand. -/
theorem combineWith_error_other {y f : Query} (hf : f.isComposable = false)
    (p : POp) : y.combineWith p (Sum.inr f) = .error .compositionError := by
  cases hy : y.isComposable with
  | false => exact combineWith_error_self hy p _
  | true =>
    unfold Query.combineWith
    simp [Query.checkComposable, hy, hf]

/-- Unfolding of compose on exactly two operands. -/
theorem compose_two (op : AOp) (o1 o2 : Operand) :
    Query.compose op [some o1, some o2] =
      match checkAllComposable [o1, o2] with
      | .error e => .error e
      | .ok _ => composeMulti op (flattenAll op [o1, o2]) := rfl

/-- Unfolding of compose on exactly three operands. -/
theorem compose_three (op : AOp) (o1 o2 o3 : Operand) :
    Query.compose op [some o1, some o2, some o3] =
      match checkAllComposable [o1, o2, o3] with
      | .error e => .error e
      | .ok _ => composeMulti op (flattenAll op [o1, o2, o3]) := rfl

/-- A failing composability loop makes a two-operand compose fail. -/
theorem compose_two_error (op : AOp) (o1 o2 : Operand)
    (h : checkAllComposable [o1, o2] = .error .compositionError) :
    Query.compose op [some o1, some o2] = .error .compositionError := by
  rw [compose_two, h]

/-- A passing composability loop reduces a two-operand compose to the
flatten-then-combine core. -/
theorem compose_two_checked (op : AOp) (o1 o2 : Operand)
    (h : checkAllComposable [o1, o2] = .ok ()) :
    Query.compose op [some o1, some o2] = composeMulti op (flattenAll op [o1, o2]) := by
  rw [compose_two, h]

/-- A passing composability loop reduces a three-operand compose to the
flatten-then-combine core. -/
theorem compose_three_checked (op : AOp) (o1 o2 o3 : Operand)
    (h : checkAllComposable [o1, o2, o3] = .ok ()) :
    Query.compose op [some o1, some o2, some o3] = composeMulti op (flattenAll op [o1, o2, o3]) := by
  rw [compose_three, h]

/-- A successful two-operand compose of composable nodes records the
combining operator, the flattened operand list, and empty search params on
the result. -/
theorem compose_two_ok_fields {op : AOp} {a b inner : Query}
    (ha : a.isComposable = true) (hb : b.isComposable = true)
    (h : Query.compose op [some (Sum.inr a), some (Sum.inr b)] = .ok inner) :
    inner.op = some op ∧ inner.subqs = flattenAll op [Sum.inr a, Sum.inr b] ∧
    inner.searchParams = none := by
  have hchk : checkAllComposable [Sum.inr a, Sum.inr b] = .ok () := by
    simp [checkAllComposable, Query.checkComposable, ha, hb]
  rw [compose_two_checked op _ _ hchk] at h
  unfold composeMulti at h
  cases hm : mergeAll Query.emptyQ (flattenAll op [Sum.inr a, Sum.inr b]) with
  | error e => rw [hm] at h; exact absurd h (by simp)
  | ok merged =>
    rw [hm] at h
    have := Except.ok.inj h
    subst this
    have hsp := mergeAll_ok_searchParams _ _ _ hm
    rw [show Query.emptyQ.searchParams = none from rfl] at hsp
    exact ⟨by simp, by simp, by simp [hsp]⟩

/-- C1: a node built from a raw engine expression has unknown serialised
text (None), as the claim states; but the claimed propagation fails in the
code: composing such a node under AND or OR leaves the serialised text of
the result as the initial literal from the empty-query constructor, and a
pairwise combination whose right operand is the unknown node keeps the left
text; only a left unknown operand yields None.  This theorem evaluates the
code at those failing inputs. -/
theorem unknown_provenance_not_propagated :
    Query.evalable_repr qRawW = none ∧
    (Query.compose .AND [some (Sum.inr qRawW), some (Sum.inr qLeafB)]).map
      Query.evalable_repr = .ok (some "Query()") ∧
    (Query.compose .OR [some (Sum.inr qRawW), some (Sum.inr qLeafB)]).map
      Query.evalable_repr = .ok (some "Query()") ∧
    (qLeafB.combineWith .FILTER (Sum.inr qRawW)).map Query.evalable_repr =
      .ok (some "B") ∧
    (qRawW.combineWith .FILTER (Sum.inr qLeafB)).map Query.evalable_repr =
      .ok none ∧
    (some "Query()" ≠ (none : Option String)) ∧
    (some "B" ≠ (none : Option String)) :=
  ⟨rfl, rfl, rfl, rfl, rfl, by decide, by decide⟩

/-- C2: get_facets_except never returns: after passing the invert-mode
check, its final statement calls str.join with four positional arguments,
which raises TypeError; so it cannot return the facet-annotated copy its
own docstring promises. -/
theorem get_facets_except_always_raises (q : Query) (flds : List String)
    (ca dc : Option Nat) (h : q.searchParams = none) :
    q.get_facets_except flds ca dc = .error .typeError := by
  unfold Query.get_facets_except
  simp [Query.searchParams_copy, h]

/-- C2 witness: a plain leaf query with no prior facet spec hits the
TypeError. -/
theorem get_facets_except_always_raises_witness :
    qLeafA.searchParams = none ∧
    qLeafA.get_facets_except [ "color" ] none none = .error .typeError :=
  ⟨rfl, get_facets_except_always_raises qLeafA [ "color" ] none none rfl⟩

/-- C3 counterexample: the three-operand compose of leaves with texts A, B,
C serialises to the Query-prefixed function-call form, not to the claimed
unprefixed form. -/
theorem roundtrip_serialised_counterexample :
    (Query.compose .OR [some (Sum.inr qLeafA), some (Sum.inr qLeafB),
       some (Sum.inr qLeafC)]).map Query.evalable_repr =
      .ok (some "Query.compose(Query.OP_OR, (A, B, C))") ∧
    (some "Query.compose(Query.OP_OR, (A, B, C))" : Option String) ≠
      some "compose(OP_OR, (A, B, C))" :=
  ⟨rfl, by decide⟩

/-- C3 amended: for leaf nodes with texts A, B and C over any leaf terms,
compose(OP_OR, [a, b, c]) serialises to
Query.compose(Query.OP_OR, (A, B, C)), a.filter(b) to A.filter(B), and
a * 2.0 to (A * 2.0). -/
theorem roundtrip_serialised_texts (ta tb tc : String) :
    (Query.compose .OR [some (Sum.inr (Query.ofXapian (.leaf ta) (some "A") none)),
       some (Sum.inr (Query.ofXapian (.leaf tb) (some "B") none)),
       some (Sum.inr (Query.ofXapian (.leaf tc) (some "C") none))]).map
      Query.evalable_repr = .ok (some "Query.compose(Query.OP_OR, (A, B, C))") ∧
    ((Query.ofXapian (.leaf ta) (some "A") none).combineWith .FILTER
       (Sum.inr (Query.ofXapian (.leaf tb) (some "B") none))).map
      Query.evalable_repr = .ok (some "A.filter(B)") ∧
    ((Query.ofXapian (.leaf ta) (some "A") none).mul 2).map
      Query.evalable_repr = .ok (some "(A * 2.0)") :=
  ⟨rfl, rfl, rfl⟩

/-- C4: a node returned by get_facets is non-composable, so using it as an
operand of compose (in either position, under AND or OR, hence also of the
AND and OR infix operators, which delegate to compose) or of any pairwise
operator (XOR, AND_NOT, FILTER, AND_MAYBE, on either side) fails with the
composition error. -/
theorem facet_query_not_composable (q f : Query) (flds : List String)
    (ca dc : Option Nat) (x : Operand) (y : Query) (p : POp)
    (hf : q.get_facets flds ca dc = .ok f) :
    Query.compose .AND [some (Sum.inr f), some x] = .error .compositionError ∧
    Query.compose .OR [some (Sum.inr f), some x] = .error .compositionError ∧
    Query.compose .AND [some x, some (Sum.inr f)] = .error .compositionError ∧
    Query.compose .OR [some x, some (Sum.inr f)] = .error .compositionError ∧
    f.combineWith p x = .error .compositionError ∧
    y.combineWith p (Sum.inr f) = .error .compositionError := by
  have hnc := get_facets_ok_noncomposable hf
  have hchk1 : checkAllComposable [Sum.inr f, x] = .error .compositionError :=
    checkAllComposable_error_of_mem _ f (List.mem_cons_self _ _) hnc
  have hchk2 : checkAllComposable [x, Sum.inr f] = .error .compositionError :=
    checkAllComposable_error_of_mem _ f
      (List.mem_cons_of_mem _ (List.mem_cons_self _ _)) hnc
  exact ⟨compose_two_error _ _ _ hchk1, compose_two_error _ _ _ hchk1,
         compose_two_error _ _ _ hchk2, compose_two_error _ _ _ hchk2,
         combineWith_error_self hnc p x, combineWith_error_other hnc p⟩

/-- C4 witness: the facet node built from qLeafA fails both a compose and a
pairwise combination. -/
theorem facet_query_not_composable_witness :
    qLeafA.get_facets [ "color" ] none none = .ok facetQ ∧
    Query.compose .AND [some (Sum.inr facetQ), some (Sum.inr qLeafB)] =
      .error .compositionError ∧
    facetQ.combineWith .XOR (Sum.inr qLeafB) = .error .compositionError :=
  ⟨rfl,
   (facet_query_not_composable qLeafA facetQ [ "color" ] none none
     (Sum.inr qLeafB) qLeafB .XOR rfl).1,
   (facet_query_not_composable qLeafA facetQ [ "color" ] none none
     (Sum.inr qLeafB) qLeafB .XOR rfl).2.2.2.2.1⟩

/-- C5 counterexample: the empty query has no connection, yet norm returns
it unchanged instead of raising, because get_max_possible_weight returns 0
for an empty query before consulting the connection. -/
theorem norm_no_connection_counterexample :
    Query.emptyQ.conn = none ∧ Query.emptyQ.norm 1 = .ok Query.emptyQ ∧
    Query.emptyQ.norm 1 ≠ .error .noConnection :=
  ⟨rfl, rfl, fun h => Except.noConfusion h⟩

/-- C5 amended: for every NON-EMPTY query node with no associated
connection, norm fails with the no-connection error, because computing the
maximum possible weight delegates to the connection. -/
theorem norm_no_connection_raises (q : Query) (mw : Rat)
    (hne : q.query.isEmpty = false) (hc : q.conn = none) :
    q.norm mw = .error .noConnection := by
  have h : q.getMaxPossibleWeight = .error .noConnection := by
    simp [Query.getMaxPossibleWeight, hne, hc]
  unfold Query.norm
  rw [h]

/-- C5 witness: a non-empty leaf with no connection raises. -/
theorem norm_no_connection_raises_witness :
    connQ0.query.isEmpty = false ∧ connQ0.conn = none ∧
    connQ0.norm 1 = .error .noConnection :=
  ⟨rfl, rfl, norm_no_connection_raises connQ0 1 rfl rfl⟩

/-- C6: composing an AND composite of a and b with c under AND yields
exactly the same result (in particular the same flattened operand list and
the same serialised text) as composing a, b and c directly, and the
flattening step splices the subnodes of the same-operator composite
verbatim, one level only. -/
theorem compose_flattening (a b c inner : Query)
    (ha : a.isComposable = true) (hb : b.isComposable = true)
    (hc : c.isComposable = true)
    (h1 : Query.compose .AND [some (Sum.inr a), some (Sum.inr b)] = .ok inner) :
    flattenOp .AND (Sum.inr inner) = inner.subqs ∧
    Query.compose .AND [some (Sum.inr inner), some (Sum.inr c)] =
      Query.compose .AND [some (Sum.inr a), some (Sum.inr b), some (Sum.inr c)] := by
  obtain ⟨hop, hsub, hsp⟩ := compose_two_ok_fields ha hb h1
  have hic : inner.isComposable = true := by simp [Query.isComposable, hsp]
  have hflat : flattenOp .AND (Sum.inr inner) = inner.subqs := by
    simp [flattenOp, hop]
  refine ⟨hflat, ?_⟩
  have hchkL : checkAllComposable [Sum.inr inner, Sum.inr c] = .ok () := by
    simp [checkAllComposable, Query.checkComposable, hic, hc]
  have hchkR : checkAllComposable [Sum.inr a, Sum.inr b, Sum.inr c] = .ok () := by
    simp [checkAllComposable, Query.checkComposable, ha, hb, hc]
  rw [compose_two_checked _ _ _ hchkL, compose_three_checked _ _ _ _ hchkR]
  have hl : flattenAll .AND [Sum.inr inner, Sum.inr c] =
      flattenAll .AND [Sum.inr a, Sum.inr b, Sum.inr c] := by
    simp [flattenAll, hflat, hsub, List.append_assoc]
  rw [hl]

/-- C6 witness: with concrete leaves, nesting and direct composition agree
and give the flattened three-operand serialised form. -/
theorem compose_flattening_witness :
    Query.compose .AND [some (Sum.inr qLeafA), some (Sum.inr qLeafB)] = .ok innerAB ∧
    Query.compose .AND [some (Sum.inr innerAB), some (Sum.inr qLeafC)] =
      Query.compose .AND [some (Sum.inr qLeafA), some (Sum.inr qLeafB), some (Sum.inr qLeafC)] ∧
    (Query.compose .AND [some (Sum.inr innerAB), some (Sum.inr qLeafC)]).map
      Query.evalable_repr = .ok (some "Query.compose(Query.OP_AND, (A, B, C))") :=
  ⟨rfl, (compose_flattening qLeafA qLeafB qLeafC innerAB rfl rfl rfl rfl).2, rfl⟩

/-- C7: whenever the maximum possible weight of a node computes to a
non-positive value, norm returns the node itself, unchanged in text and
structure. -/
theorem norm_nonpositive_returns_self (q : Query) (mw mp : Rat)
    (h : q.getMaxPossibleWeight = .ok mp) (hle : mp ≤ 0) :
    q.norm mw = .ok q := by
  unfold Query.norm
  rw [h]
  have hng : ¬mp > 0 := not_lt.mpr hle
  simp [hng]

/-- C7 witness: a non-empty node whose connection answers 0 is returned
unchanged by norm. -/
theorem norm_nonpositive_returns_self_witness :
    zeroWq.getMaxPossibleWeight = .ok 0 ∧ (0 : Rat) ≤ 0 ∧
    zeroWq.norm 1 = .ok zeroWq :=
  ⟨rfl, le_refl 0, norm_nonpositive_returns_self zeroWq 1 0 rfl (le_refl 0)⟩

/-- C8: merging the parameters of two nodes with distinct non-null
connections fails with the connection-mismatch error; when exactly one side
carries a connection the merge succeeds and the result carries it. -/
theorem merge_connection_reconciliation (t s : Query) (c1 c2 : Conn) :
    (t.conn = some c1 → s.conn = some c2 → c1 ≠ c2 →
      t.mergeParams s = .error .connectionMismatch) ∧
    (t.conn = some c1 → s.conn = none →
      (t.mergeParams s).map Query.conn = .ok (some c1)) ∧
    (t.conn = none → s.conn = some c2 →
      (t.mergeParams s).map Query.conn = .ok (some c2)) := by
  refine ⟨?_, ?_, ?_⟩
  · intro h1 h2 hne
    unfold Query.mergeParams
    rw [h1, h2]
    rw [show mergeConn (some c1) (some c2) = .error .connectionMismatch from by
      simp [mergeConn, hne]]
  · intro h1 h2
    unfold Query.mergeParams
    rw [h1, h2]
    rw [show mergeConn (some c1) none = .ok (some c1) from by simp [mergeConn]]
    simp [Except.map]
  · intro h1 h2
    unfold Query.mergeParams
    rw [h1, h2, mergeConn_none_left]
    simp [Except.map]

/-- C8 witness: concrete nodes on connections 1 and 2 fail to merge; a node
with a connection merges with a connection-less node in either order, and
the result keeps the non-null connection. -/
theorem merge_connection_reconciliation_witness :
    connQ1.mergeParams connQ2 = .error .connectionMismatch ∧
    (connQ1.mergeParams connQ0).map Query.conn = .ok (some ⟨1, 5⟩) ∧
    (connQ0.mergeParams connQ2).map Query.conn = .ok (some ⟨2, 7⟩) :=
  ⟨(merge_connection_reconciliation connQ1 connQ2 ⟨1, 5⟩ ⟨2, 7⟩).1 rfl rfl (by decide),
   (merge_connection_reconciliation connQ1 connQ0 ⟨1, 5⟩ ⟨2, 7⟩).2.1 rfl rfl,
   (merge_connection_reconciliation connQ0 connQ2 ⟨2, 7⟩ ⟨2, 7⟩).2.2 rfl rfl⟩

/-- C9: merging the parameters of two nodes sharing an identical range
triple keeps exactly one copy of it; the result extends the target range
list on the right with exactly those source ranges not already present
(membership by full triple equality), and every source range is present in
the result. -/
theorem merge_ranges_union (t s u : Query) (r : RangeT)
    (h : t.mergeParams s = .ok u) :
    (t.ranges.count r = 1 → r ∈ s.ranges → u.ranges.count r = 1) ∧
    (∃ ext, u.ranges = t.ranges ++ ext ∧ ∀ x ∈ ext, x ∈ s.ranges ∧ x ∉ t.ranges) ∧
    (∀ x ∈ s.ranges, x ∈ u.ranges) := by
  have hr : u.ranges = mergeRanges t.ranges s.ranges :=
    (mergeParams_ok_fields h).2.2.2.2
  refine ⟨?_, ?_, ?_⟩
  · intro hc _
    rw [hr]
    have hmem : r ∈ t.ranges := by
      have : 0 < t.ranges.count r := by rw [hc]; exact Nat.one_pos
      exact List.count_pos_iff.mp this
    rw [mergeRanges_count_of_mem s.ranges t.ranges r hmem]
    exact hc
  · rw [hr]
    exact mergeRanges_extends s.ranges t.ranges
  · intro x hx
    rw [hr]
    exact mergeRanges_mem_src s.ranges t.ranges x hx

/-- C9 witness: merging two concrete nodes sharing the price range keeps a
single copy of it and appends the new date range. -/
theorem merge_ranges_union_witness :
    rngT.mergeParams rngS = .ok rngU ∧
    rngU.ranges.count ( "price" , "0" , "100" ) = 1 :=
  ⟨rfl, (merge_ranges_union rngT rngS rngU ( "price" , "0" , "100" ) rfl).1
    (by decide) (by decide)⟩

/-- C10: a non-empty, composable node whose connection answers a positive
maximum possible weight but whose serialised text is unknown makes norm
raise TypeError (appending the .norm() suffix to None) instead of returning
a normalised query with unknown text. -/
theorem norm_unknown_serialised_type_error (q : Query) (c : Conn) (mw : Rat)
    (h1 : q.query.isEmpty = false) (h2 : q.conn = some c) (h3 : 0 < c.mpw)
    (h4 : q.serialised = none) (h5 : q.searchParams = none) :
    q.norm mw = .error .typeError := by
  have hmp : q.getMaxPossibleWeight = .ok c.mpw := by
    simp [Query.getMaxPossibleWeight, h1, h2]
  have hmerge : Query.emptyQ.mergeParams q =
      .ok (Query.mk Query.emptyQ.query (Query.emptyQ.refs ++ q.refs) q.conn
        (mergeRanges Query.emptyQ.ranges q.ranges) Query.emptyQ.serialised
        Query.emptyQ.op Query.emptyQ.subqs Query.emptyQ.searchParams) := by
    unfold Query.mergeParams
    rw [show Query.emptyQ.conn = none from rfl, mergeConn_none_left]
  have hchk : q.checkComposable = .ok () := by
    simp [Query.checkComposable, Query.isComposable, h5]
  have hmul : ∀ m : Rat, ∃ r, q.mul m = .ok r := by
    intro m
    unfold Query.mul
    rw [hmerge, hchk, h4]
    exact ⟨_, rfl⟩
  obtain ⟨r, hro⟩ := hmul (mw / c.mpw)
  unfold Query.norm
  rw [hmp]
  simp [h3, hro, h4]

/-- C10 witness: a non-empty raw-built node attached to a positive-weight
connection raises TypeError from norm. -/
theorem norm_unknown_serialised_type_error_witness :
    unkSerQ.query.isEmpty = false ∧ unkSerQ.serialised = none ∧
    (0 : Rat) < 5 ∧ unkSerQ.norm 1 = .error .typeError :=
  ⟨rfl, rfl, by decide,
   norm_unknown_serialised_type_error unkSerQ ⟨1, 5⟩ 1 rfl rfl (by decide) rfl rfl⟩

end Xappy
